import Mathlib

/-!
# Issue processor of the automation bot

Shallow embedding of `server/processor/issueProcessor/issue_processor.go`:
the router `Process` and the three handlers `ActToIssueOpened`,
`ActToIssueEdited` and `ActToIssueLabeled`.

* Go pointers are `Option`; dereferencing `none` ends the run with
  `Outcome.panic`.
* The upstream client is a record of response functions.  Each response may
  depend on the calls made earlier in the same run, so quantifying over all
  clients covers every upstream behaviour.  Every call is appended to a log.
* What the file takes from other packages (`utils`, `open`, and `fmt.Sprintf`
  on the template constants) is collected in `Env` and stays a parameter of
  every definition.
-/

namespace IssueProcessor

/-! ## Data model -/

/-- Go `error` value, identified by its message. -/
structure GoError where
  msg : String
deriving DecidableEq, Repr

/-- Fields of `github.User` read by the handlers. -/
structure User where
  Login : Option String
deriving DecidableEq, Repr

/-- Fields of `github.Label` read by the handlers. -/
structure Label where
  Name : Option String
deriving DecidableEq, Repr

/-- Fields of `github.Issue` read by the handlers. -/
structure Issue where
  Number : Option Int
  Title : Option String
  Body : Option String
  User : Option User
  Labels : List Label
deriving DecidableEq, Repr

/-- Fields of `github.IssueComment` written by the handlers. -/
structure IssueComment where
  Body : Option String
deriving DecidableEq, Repr

/-- Accessor `(*github.Label).GetName`: the name, or the empty string when the
label pointer or its name is nil. -/
def GetName : Option Label → String
  | some ⟨some name⟩ => name
  | _ => ""

/-- Go builtin `len` on a string: the number of bytes of its UTF-8 encoding. -/
def len (s : String) : Nat := s.utf8ByteSize

/-- IssueOpenedActionFunc, line 15. -/
abbrev IssueOpenedActionFunc := Issue → List String

/-- What the file takes from other packages: the two payload decoders and the
three comment templates of `utils`, the rule `open.ParseToGenerateLabels`, and
`fmt.Sprintf` applied to a template and one string operand. -/
structure Env where
  ExtractActionType : List UInt8 → Except GoError String
  ExactIssue : List UInt8 → Except GoError Issue
  ParseToGenerateLabels : IssueOpenedActionFunc
  IssueTitleTooShort : String
  IssueDescriptionTooShort : String
  IssueNeedPOComment : String
  Sprintf : String → String → String

/-- Modelled from the spec: `utils.DeltaSlice`, called on line 146 and defined
in package `utils`.  Section 4.5: the label names present in `desired` but
absent from `current`, names compared as exact strings, membership being all
that counts for duplicates. -/
def DeltaSlice (current desired : List String) : List String :=
  desired.filter (fun name => !current.contains name)

/-! ## Upstream client -/

/-- One call on the upstream client. -/
inductive Call where
  | AddLabelsToIssue (num : Int) (labels : List String)
  | GetLabelsInIssue (num : Int)
  | AddCommentToIssue (num : Int) (comment : IssueComment)
deriving DecidableEq, Repr

/-- Upstream client `gh.Client`.  The first argument of every operation is the
list of calls made before it in the current run. -/
structure Client where
  AddLabelsToIssue : List Call → Int → List String → Option GoError
  GetLabelsInIssue : List Call → Int → Except GoError (List (Option Label))
  AddCommentToIssue : List Call → Int → IssueComment → Option GoError

/-- How a run of a handler or of `Process` ends. -/
inductive Outcome where
  | nil
  | err (e : GoError)
  | panic
deriving DecidableEq, Repr

/-! ## Rule registry, lines 14-33 -/

/-- Register, lines 21-23: appends to the global `IssueOpenedActionFuncs`,
passed here as the last argument. -/
def Register (a : IssueOpenedActionFunc)
    (IssueOpenedActionFuncs : List IssueOpenedActionFunc) : List IssueOpenedActionFunc :=
  IssueOpenedActionFuncs ++ [a]

/-- Package `init`, lines 25-33: registers `open.ParseToGenerateLabels`. -/
def init (env : Env)
    (IssueOpenedActionFuncs : List IssueOpenedActionFunc) : List IssueOpenedActionFunc :=
  [env.ParseToGenerateLabels].foldl (fun funcs processFunc => Register processFunc funcs)
    IssueOpenedActionFuncs

/-! ## Handlers -/

/-- The "attach comment" block, lines 93-125 of `ActToIssueOpened` and, with
the same text, lines 152-184 of `ActToIssueEdited`.  `log` holds the calls made
so far. -/
def attachComment (env : Env) (c : Client) (issue : Issue) (log : List Call) :
    Outcome × List Call :=
  -- issue.Title == nil || len(*(issue.Title)) < 20
  if (match issue.Title with
      | none => true
      | some title => decide (len title < 20)) then
    -- *(issue.User.Login)
    match issue.User with
    | none => (Outcome.panic, log)
    | some user =>
      match user.Login with
      | none => (Outcome.panic, log)
      | some login =>
        let body := env.Sprintf env.IssueTitleTooShort login
        let newComment : IssueComment := { Body := some body }
        -- *(issue.Number)
        match issue.Number with
        | none => (Outcome.panic, log)
        | some number =>
          match c.AddCommentToIssue log number newComment with
          | some err => (Outcome.err err, log ++ [Call.AddCommentToIssue number newComment])
          | none =>
            let labels := ["status/more-info-needed"]
            -- the value returned by AddLabelsToIssue is not inspected
            (Outcome.nil,
              log ++ [Call.AddCommentToIssue number newComment,
                      Call.AddLabelsToIssue number labels])
  -- issue.Body == nil || len(*(issue.Body)) < 50
  else if (match issue.Body with
      | none => true
      | some text => decide (len text < 50)) then
    match issue.User with
    | none => (Outcome.panic, log)
    | some user =>
      match user.Login with
      | none => (Outcome.panic, log)
      | some login =>
        let body := env.Sprintf env.IssueDescriptionTooShort login
        let newComment : IssueComment := { Body := some body }
        match issue.Number with
        | none => (Outcome.panic, log)
        | some number =>
          match c.AddCommentToIssue log number newComment with
          | some err => (Outcome.err err, log ++ [Call.AddCommentToIssue number newComment])
          | none =>
            let labels := ["status/more-info-needed"]
            (Outcome.nil,
              log ++ [Call.AddCommentToIssue number newComment,
                      Call.AddLabelsToIssue number labels])
  else
    (Outcome.nil, log)

/-- ActToIssueOpened, lines 82-126. -/
def ActToIssueOpened (env : Env) (c : Client) (issue : Issue) : Outcome × List Call :=
  let labels := env.ParseToGenerateLabels issue
  if labels.length ≠ 0 then
    match issue.Number with
    | none => (Outcome.panic, [])
    | some number =>
      match c.AddLabelsToIssue [] number labels with
      | some err => (Outcome.err err, [Call.AddLabelsToIssue number labels])
      | none => attachComment env c issue [Call.AddLabelsToIssue number labels]
  else
    attachComment env c issue []

/-- ActToIssueEdited, lines 133-185. -/
def ActToIssueEdited (env : Env) (c : Client) (issue : Issue) : Outcome × List Call :=
  let newLabels := env.ParseToGenerateLabels issue
  if newLabels.length ≠ 0 then
    match issue.Number with
    | none => (Outcome.panic, [])
    | some number =>
      match c.GetLabelsInIssue [] number with
      | Except.error err => (Outcome.err err, [Call.GetLabelsInIssue number])
      | Except.ok getLabels =>
        let originalLabels := getLabels.map GetName
        let addedLabels := DeltaSlice originalLabels newLabels
        match c.AddLabelsToIssue [Call.GetLabelsInIssue number] number addedLabels with
        | some err =>
          (Outcome.err err,
            [Call.GetLabelsInIssue number, Call.AddLabelsToIssue number addedLabels])
        | none =>
          attachComment env c issue
            [Call.GetLabelsInIssue number, Call.AddLabelsToIssue number addedLabels]
  else
    attachComment env c issue []

/-- The loop of lines 192-197: stops at the first label whose name is present
and equal to "priority/P0". -/
def needP0Comment : List Label → Bool
  | [] => false
  | label :: rest =>
    match label.Name with
    | some name => if name = "priority/P0" then true else needP0Comment rest
    | none => needP0Comment rest

/-- ActToIssueLabeled, lines 188-212. -/
def ActToIssueLabeled (env : Env) (c : Client) (issue : Issue) : Outcome × List Call :=
  if !needP0Comment issue.Labels then
    (Outcome.nil, [])
  else
    match issue.User with
    | none => (Outcome.panic, [])
    | some user =>
      match user.Login with
      | none => (Outcome.panic, [])
      | some login =>
        let body := env.Sprintf env.IssueNeedPOComment login
        let newComment : IssueComment := { Body := some body }
        match issue.Number with
        | none => (Outcome.panic, [])
        | some number =>
          match c.AddCommentToIssue [] number newComment with
          | some err => (Outcome.err err, [Call.AddCommentToIssue number newComment])
          | none => (Outcome.nil, [Call.AddCommentToIssue number newComment])

/-- Errorf on line 71: the literal format "unknown action type %s in issue: "
with the action type as its one string operand. -/
def unknownActionType (actionType : String) : GoError :=
  { msg := "unknown action type " ++ actionType ++ " in issue: " }

/-- Process, lines 41-75. -/
def Process (env : Env) (c : Client) (data : List UInt8) : Outcome × List Call :=
  match env.ExtractActionType data with
  | Except.error err => (Outcome.err err, [])
  | Except.ok actionType =>
    match env.ExactIssue data with
    | Except.error err => (Outcome.err err, [])
    | Except.ok issue =>
      if actionType = "opened" then
        -- if err != nil then return err, else fall through to return nil
        ActToIssueOpened env c issue
      else if actionType = "edited" then
        ActToIssueEdited env c issue
      else if actionType = "labeled" then
        match ActToIssueLabeled env c issue with
        | (Outcome.err _, log) => (Outcome.nil, log)
        | (Outcome.nil, log) => (Outcome.nil, log)
        | (Outcome.panic, log) => (Outcome.panic, log)
      else if actionType = "reopened" then
        (Outcome.nil, [])
      else
        (Outcome.err (unknownActionType actionType), [])

/-! ## Vocabulary of the statements -/

/-- Client whose calls all succeed. -/
def Client.AllSucceed (c : Client) : Prop :=
  (∀ log num labels, c.AddLabelsToIssue log num labels = none) ∧
  (∀ log num, ∃ getLabels, c.GetLabelsInIssue log num = Except.ok getLabels) ∧
  (∀ log num comment, c.AddCommentToIssue log num comment = none)

/-- The AddCommentToIssue calls of a log, in order. -/
def commentCalls : List Call → List (Int × IssueComment)
  | [] => []
  | Call.AddCommentToIssue num comment :: rest => (num, comment) :: commentCalls rest
  | Call.AddLabelsToIssue _ _ :: rest => commentCalls rest
  | Call.GetLabelsInIssue _ :: rest => commentCalls rest

/-- The label lists submitted by the AddLabelsToIssue calls of a log, in order. -/
def labelCalls : List Call → List (Int × List String)
  | [] => []
  | Call.AddLabelsToIssue num labels :: rest => (num, labels) :: labelCalls rest
  | Call.AddCommentToIssue _ _ :: rest => labelCalls rest
  | Call.GetLabelsInIssue _ :: rest => labelCalls rest

/-- The names GetLabelsInIssue returns for an issue number at the start of a
run; empty when the call fails. -/
def currentLabels (c : Client) (num : Int) : List String :=
  match c.GetLabelsInIssue [] num with
  | Except.ok getLabels => getLabels.map GetName
  | Except.error _ => []

/-- Calls of the rule-label step of ActToIssueOpened (lines 84-91) when they
succeed: none when the rule gives no label, else one submission of its labels. -/
def ruleLabelCallsOpened (env : Env) (issue : Issue) (number : Int) : List Call :=
  if env.ParseToGenerateLabels issue = [] then []
  else [Call.AddLabelsToIssue number (env.ParseToGenerateLabels issue)]

/-- Calls of the rule-label step of ActToIssueEdited (lines 135-150) when they
succeed: none when the rule gives no label, else the label read and one
submission of the delta. -/
def ruleLabelCallsEdited (env : Env) (c : Client) (issue : Issue) (number : Int) : List Call :=
  if env.ParseToGenerateLabels issue = [] then []
  else [Call.GetLabelsInIssue number,
        Call.AddLabelsToIssue number
          (DeltaSlice (currentLabels c number) (env.ParseToGenerateLabels issue))]

/-- Shape of what the attach-comment block adds to the log: nothing, one
comment, or one comment followed by the fixed-label submission. -/
def CommentTail (post : List Call) : Prop :=
  post = [] ∨ ∃ num comment,
    post = [Call.AddCommentToIssue num comment] ∨
    post = [Call.AddCommentToIssue num comment,
            Call.AddLabelsToIssue num ["status/more-info-needed"]]

/-- The desired labels in the words of section 4.3, step 1: the outputs of
every rule of the registry on the issue, concatenated in registration order. -/
def specDesired (funcs : List IssueOpenedActionFunc) (issue : Issue) : List String :=
  (funcs.map (fun rule => rule issue)).flatten

/-- An error that some call on the client returns. -/
def UpstreamError (c : Client) (e : GoError) : Prop :=
  (∃ log num labels, c.AddLabelsToIssue log num labels = some e) ∨
  (∃ log num, c.GetLabelsInIssue log num = Except.error e) ∨
  (∃ log num comment, c.AddCommentToIssue log num comment = some e)

/-- A run that ends by returning nil or an error of the upstream client. -/
def ReturnsNilOrUpstreamError (c : Client) (run : Outcome × List Call) : Prop :=
  run.1 = Outcome.nil ∨ ∃ e, run.1 = Outcome.err e ∧ UpstreamError c e

/-! ## Sample inputs -/

/-- Replaces the first "%s" of a format by the operand. -/
def substVerb (arg : List Char) : List Char → List Char
  | [] => []
  | [ch] => [ch]
  | ch :: ch2 :: rest =>
    if ch = '%' ∧ ch2 = 's' then arg ++ rest else ch :: substVerb arg (ch2 :: rest)

/-- Sample environment: every payload decodes to the given action type and
issue, and the one rule labels an issue "kind/bug" when it has a title. -/
def sampleEnv (actionType : String) (issue : Issue) : Env where
  ExtractActionType := fun _ => Except.ok actionType
  ExactIssue := fun _ => Except.ok issue
  ParseToGenerateLabels := fun i => if i.Title.isSome then ["kind/bug"] else []
  IssueTitleTooShort := "title too short @%s"
  IssueDescriptionTooShort := "description too short @%s"
  IssueNeedPOComment := "P0 needs attention @%s"
  Sprintf := fun format arg => String.mk (substVerb arg.data format.data)

/-- Sample client: every call succeeds and the issue carries the given labels. -/
def okClient (names : List String) : Client where
  AddLabelsToIssue := fun _ _ _ => none
  GetLabelsInIssue := fun _ _ => Except.ok (names.map (fun name => some { Name := some name }))
  AddCommentToIssue := fun _ _ _ => none

/-- Sample client: reading labels and posting comments succeed, every
AddLabelsToIssue call that submits "status/more-info-needed" fails. -/
def fixedLabelFailingClient : Client where
  AddLabelsToIssue := fun _ _ labels =>
    if labels = ["status/more-info-needed"] then some { msg := "add labels failed" } else none
  GetLabelsInIssue := fun _ _ => Except.ok []
  AddCommentToIssue := fun _ _ _ => none

/-- Sample client: every call fails. -/
def failingClient : Client where
  AddLabelsToIssue := fun _ _ _ => some { msg := "add labels failed" }
  GetLabelsInIssue := fun _ _ => Except.error { msg := "get labels failed" }
  AddCommentToIssue := fun _ _ _ => some { msg := "add comment failed" }

/-- Issue 43: a title of 25 bytes and a body of 10 bytes. -/
def issue43 : Issue :=
  { Number := some 43, Title := some "Crash when pulling images", Body := some "it crashes",
    User := some { Login := some "bob" }, Labels := [] }

/-- Scenario of section 8: issue 7 carries "priority/P0". -/
def issue7 : Issue :=
  { Number := some 7, Title := some "Daemon dies on start", Body := none,
    User := some { Login := some "carol" }, Labels := [{ Name := some "priority/P0" }] }

/-- Issue 9: a title of 10 characters that take 30 bytes, and a body of 60
bytes. -/
def issue9 : Issue :=
  { Number := some 9, Title := some "问题问题问题问题问题",
    Body := some "123456789012345678901234567890123456789012345678901234567890",
    User := some { Login := some "dave" }, Labels := [] }

/-- Issue 10: no reporter and no title. -/
def issue10 : Issue :=
  { Number := some 10, Title := none, Body := none, User := none, Labels := [] }

/-- Issue 11: labelled "priority/P0", no reporter. -/
def issue11 : Issue :=
  { Number := some 11, Title := none, Body := none, User := none,
    Labels := [{ Name := some "priority/P0" }] }

/-- Scenario of section 8: issue 42, title "Bug", empty body, reporter alice. -/
def issue42 : Issue :=
  { Number := some 42, Title := some "Bug", Body := some "", User := some { Login := some "alice" },
    Labels := [] }

/-! ## Lemmas on the attach-comment block -/

theorem commentCalls_append (xs ys : List Call) :
    commentCalls (xs ++ ys) = commentCalls xs ++ commentCalls ys := by
  induction xs with
  | nil => rfl
  | cons x xs ih => cases x <;> simp [commentCalls, ih]

/-- Title missing or shorter than 20 bytes, comment call succeeding: the block
posts the title comment, submits the fixed label and returns nil. -/
theorem attachComment_title (env : Env) (c : Client) (issue : Issue) (log : List Call)
    (number : Int) (user : User) (login : String)
    (hn : issue.Number = some number) (hu : issue.User = some user)
    (hl : user.Login = some login)
    (ht : issue.Title = none ∨ ∃ title, issue.Title = some title ∧ len title < 20)
    (hc : c.AddCommentToIssue log number
      { Body := some (env.Sprintf env.IssueTitleTooShort login) } = none) :
    attachComment env c issue log =
      (Outcome.nil,
        log ++ [Call.AddCommentToIssue number
                  { Body := some (env.Sprintf env.IssueTitleTooShort login) },
                Call.AddLabelsToIssue number ["status/more-info-needed"]]) := by
  rcases ht with ht | ⟨title, ht, hlt⟩
  · simp [attachComment, hn, hu, hl, ht, hc]
  · simp [attachComment, hn, hu, hl, ht, hlt, hc]

/-- Title of 20 bytes or more, body missing or shorter than 50 bytes, comment
call succeeding: the block posts the description comment, submits the fixed
label and returns nil. -/
theorem attachComment_body (env : Env) (c : Client) (issue : Issue) (log : List Call)
    (number : Int) (user : User) (login title : String)
    (hn : issue.Number = some number) (hu : issue.User = some user)
    (hl : user.Login = some login)
    (ht : issue.Title = some title) (hlt : 20 ≤ len title)
    (hb : issue.Body = none ∨ ∃ text, issue.Body = some text ∧ len text < 50)
    (hc : c.AddCommentToIssue log number
      { Body := some (env.Sprintf env.IssueDescriptionTooShort login) } = none) :
    attachComment env c issue log =
      (Outcome.nil,
        log ++ [Call.AddCommentToIssue number
                  { Body := some (env.Sprintf env.IssueDescriptionTooShort login) },
                Call.AddLabelsToIssue number ["status/more-info-needed"]]) := by
  have hlt2 : ¬ len title < 20 := by omega
  rcases hb with hb | ⟨text, hb, hlb⟩
  · simp [attachComment, hn, hu, hl, ht, hlt2, hb, hc]
  · simp [attachComment, hn, hu, hl, ht, hlt2, hb, hlb, hc]

/-- Title of 20 bytes or more and body of 50 bytes or more: the block makes no
call and returns nil. -/
theorem attachComment_pass (env : Env) (c : Client) (issue : Issue) (log : List Call)
    (title text : String)
    (ht : issue.Title = some title) (hlt : 20 ≤ len title)
    (hb : issue.Body = some text) (hlb : 50 ≤ len text) :
    attachComment env c issue log = (Outcome.nil, log) := by
  have hlt2 : ¬ len title < 20 := by omega
  have hlb2 : ¬ len text < 50 := by omega
  simp [attachComment, ht, hlt2, hb, hlb2]

/-- With a client whose calls all succeed, ActToIssueOpened is the rule-label
call, when there are rule labels, followed by the attach-comment block. -/
theorem ActToIssueOpened_allSucceed (env : Env) (c : Client) (issue : Issue) (number : Int)
    (hn : issue.Number = some number) (hc : c.AllSucceed) :
    ActToIssueOpened env c issue =
      attachComment env c issue (ruleLabelCallsOpened env issue number) := by
  by_cases h : env.ParseToGenerateLabels issue = []
  · simp [ActToIssueOpened, ruleLabelCallsOpened, h]
  · simp [ActToIssueOpened, ruleLabelCallsOpened, h, hn, hc.1]

/-- With a client whose calls all succeed, ActToIssueEdited is the label
read and the delta submission, when there are rule labels, followed by the
attach-comment block. -/
theorem ActToIssueEdited_allSucceed (env : Env) (c : Client) (issue : Issue) (number : Int)
    (hn : issue.Number = some number) (hc : c.AllSucceed) :
    ActToIssueEdited env c issue =
      attachComment env c issue (ruleLabelCallsEdited env c issue number) := by
  by_cases h : env.ParseToGenerateLabels issue = []
  · simp [ActToIssueEdited, ruleLabelCallsEdited, h]
  · obtain ⟨getLabels, hg⟩ := hc.2.1 [] number
    simp [ActToIssueEdited, ruleLabelCallsEdited, h, hn, hc.1, hg, currentLabels]

theorem commentCalls_ruleLabelCallsOpened (env : Env) (issue : Issue) (number : Int) :
    commentCalls (ruleLabelCallsOpened env issue number) = [] := by
  unfold ruleLabelCallsOpened
  split <;> rfl

theorem commentCalls_ruleLabelCallsEdited (env : Env) (c : Client) (issue : Issue)
    (number : Int) : commentCalls (ruleLabelCallsEdited env c issue number) = [] := by
  unfold ruleLabelCallsEdited
  split <;> rfl

/-! ## Content-quality checks -/

/-- C1, short-circuit law.  Number and reporter login present, title missing
or of length below 20 (Go `len`), every client call succeeding: both handlers
return nil; after the calls of their rule-label step they make exactly two
calls, the title-too-short comment on the issue number, rendered with the
reporter login, and the submission of ["status/more-info-needed"]; that comment
is the only AddCommentToIssue call of the run, whatever the body is. -/
theorem title_too_short_short_circuit (env : Env) (c : Client) (issue : Issue)
    (number : Int) (user : User) (login : String)
    (hn : issue.Number = some number) (hu : issue.User = some user)
    (hl : user.Login = some login)
    (ht : issue.Title = none ∨ ∃ title, issue.Title = some title ∧ len title < 20)
    (hc : c.AllSucceed) :
    ActToIssueOpened env c issue =
        (Outcome.nil,
          ruleLabelCallsOpened env issue number ++
            [Call.AddCommentToIssue number
               { Body := some (env.Sprintf env.IssueTitleTooShort login) },
             Call.AddLabelsToIssue number ["status/more-info-needed"]]) ∧
      ActToIssueEdited env c issue =
        (Outcome.nil,
          ruleLabelCallsEdited env c issue number ++
            [Call.AddCommentToIssue number
               { Body := some (env.Sprintf env.IssueTitleTooShort login) },
             Call.AddLabelsToIssue number ["status/more-info-needed"]]) ∧
      commentCalls (ActToIssueOpened env c issue).2 =
        [(number, { Body := some (env.Sprintf env.IssueTitleTooShort login) })] ∧
      commentCalls (ActToIssueEdited env c issue).2 =
        [(number, { Body := some (env.Sprintf env.IssueTitleTooShort login) })] := by
  have ho := ActToIssueOpened_allSucceed env c issue number hn hc
  have he := ActToIssueEdited_allSucceed env c issue number hn hc
  rw [attachComment_title env c issue _ number user login hn hu hl ht (hc.2.2 _ _ _)] at ho he
  refine ⟨ho, he, ?_, ?_⟩
  · rw [ho]
    simp [commentCalls_append, commentCalls_ruleLabelCallsOpened, commentCalls]
  · rw [he]
    simp [commentCalls_append, commentCalls_ruleLabelCallsEdited, commentCalls]

/-- Witness of C1 on the scenario of section 8: issue 42, title "Bug", empty
body, reporter alice. -/
theorem title_too_short_short_circuit_witness :
    (len "Bug" < 20 ∧ (okClient []).AllSucceed) ∧
      ActToIssueOpened (sampleEnv "opened" issue42) (okClient []) issue42 =
        (Outcome.nil,
          [Call.AddLabelsToIssue 42 ["kind/bug"],
           Call.AddCommentToIssue 42 { Body := some "title too short @alice" },
           Call.AddLabelsToIssue 42 ["status/more-info-needed"]]) ∧
      ActToIssueEdited (sampleEnv "opened" issue42) (okClient []) issue42 =
        (Outcome.nil,
          [Call.GetLabelsInIssue 42,
           Call.AddLabelsToIssue 42 ["kind/bug"],
           Call.AddCommentToIssue 42 { Body := some "title too short @alice" },
           Call.AddLabelsToIssue 42 ["status/more-info-needed"]]) :=
  have h := title_too_short_short_circuit (sampleEnv "opened" issue42) (okClient []) issue42 42
    { Login := some "alice" } "alice" rfl rfl rfl
    (Or.inr ⟨"Bug", rfl, by decide⟩)
    ⟨fun _ _ _ => rfl, fun _ _ => ⟨_, rfl⟩, fun _ _ _ => rfl⟩
  ⟨⟨by decide, fun _ _ _ => rfl, fun _ _ => ⟨_, rfl⟩, fun _ _ _ => rfl⟩, h.1, h.2.1⟩

/-- C2, body check.  Number and reporter login present, title present with
length 20 or more (Go `len`), every client call succeeding.  Body missing or of
length below 50: both handlers return nil and, after the calls of their
rule-label step, make exactly two calls, the description-too-short comment on
the issue number, rendered with the reporter login, and the submission of
["status/more-info-needed"]; that comment is the only AddCommentToIssue call.
Body of length 50 or more: both handlers return nil and make the calls of their
rule-label step only, so no comment and no fixed-label submission.  Hence a
comment is posted exactly when the body is missing or shorter than 50. -/
theorem body_check (env : Env) (c : Client) (issue : Issue)
    (number : Int) (user : User) (login title : String)
    (hn : issue.Number = some number) (hu : issue.User = some user)
    (hl : user.Login = some login)
    (ht : issue.Title = some title) (hlt : 20 ≤ len title)
    (hc : c.AllSucceed) :
    ((issue.Body = none ∨ ∃ text, issue.Body = some text ∧ len text < 50) →
        ActToIssueOpened env c issue =
          (Outcome.nil,
            ruleLabelCallsOpened env issue number ++
              [Call.AddCommentToIssue number
                 { Body := some (env.Sprintf env.IssueDescriptionTooShort login) },
               Call.AddLabelsToIssue number ["status/more-info-needed"]]) ∧
        ActToIssueEdited env c issue =
          (Outcome.nil,
            ruleLabelCallsEdited env c issue number ++
              [Call.AddCommentToIssue number
                 { Body := some (env.Sprintf env.IssueDescriptionTooShort login) },
               Call.AddLabelsToIssue number ["status/more-info-needed"]]) ∧
        commentCalls (ActToIssueOpened env c issue).2 =
          [(number, { Body := some (env.Sprintf env.IssueDescriptionTooShort login) })] ∧
        commentCalls (ActToIssueEdited env c issue).2 =
          [(number, { Body := some (env.Sprintf env.IssueDescriptionTooShort login) })]) ∧
      (∀ text, issue.Body = some text → 50 ≤ len text →
        ActToIssueOpened env c issue = (Outcome.nil, ruleLabelCallsOpened env issue number) ∧
        ActToIssueEdited env c issue = (Outcome.nil, ruleLabelCallsEdited env c issue number) ∧
        commentCalls (ActToIssueOpened env c issue).2 = [] ∧
        commentCalls (ActToIssueEdited env c issue).2 = []) ∧
      (commentCalls (ActToIssueOpened env c issue).2 ≠ [] ↔
        (issue.Body = none ∨ ∃ text, issue.Body = some text ∧ len text < 50)) ∧
      (commentCalls (ActToIssueEdited env c issue).2 ≠ [] ↔
        (issue.Body = none ∨ ∃ text, issue.Body = some text ∧ len text < 50)) := by
  have ho := ActToIssueOpened_allSucceed env c issue number hn hc
  have he := ActToIssueEdited_allSucceed env c issue number hn hc
  have hshort : (issue.Body = none ∨ ∃ text, issue.Body = some text ∧ len text < 50) →
      ActToIssueOpened env c issue =
          (Outcome.nil,
            ruleLabelCallsOpened env issue number ++
              [Call.AddCommentToIssue number
                 { Body := some (env.Sprintf env.IssueDescriptionTooShort login) },
               Call.AddLabelsToIssue number ["status/more-info-needed"]]) ∧
        ActToIssueEdited env c issue =
          (Outcome.nil,
            ruleLabelCallsEdited env c issue number ++
              [Call.AddCommentToIssue number
                 { Body := some (env.Sprintf env.IssueDescriptionTooShort login) },
               Call.AddLabelsToIssue number ["status/more-info-needed"]]) ∧
        commentCalls (ActToIssueOpened env c issue).2 =
          [(number, { Body := some (env.Sprintf env.IssueDescriptionTooShort login) })] ∧
        commentCalls (ActToIssueEdited env c issue).2 =
          [(number, { Body := some (env.Sprintf env.IssueDescriptionTooShort login) })] := by
    intro hb
    rw [attachComment_body env c issue _ number user login title hn hu hl ht hlt hb
      (hc.2.2 _ _ _)] at ho he
    refine ⟨ho, he, ?_, ?_⟩
    · rw [ho]
      simp [commentCalls_append, commentCalls_ruleLabelCallsOpened, commentCalls]
    · rw [he]
      simp [commentCalls_append, commentCalls_ruleLabelCallsEdited, commentCalls]
  have hlong : ∀ text, issue.Body = some text → 50 ≤ len text →
      ActToIssueOpened env c issue = (Outcome.nil, ruleLabelCallsOpened env issue number) ∧
        ActToIssueEdited env c issue = (Outcome.nil, ruleLabelCallsEdited env c issue number) ∧
        commentCalls (ActToIssueOpened env c issue).2 = [] ∧
        commentCalls (ActToIssueEdited env c issue).2 = [] := by
    intro text hb hlb
    rw [attachComment_pass env c issue _ title text ht hlt hb hlb] at ho he
    refine ⟨ho, he, ?_, ?_⟩
    · rw [ho]
      exact commentCalls_ruleLabelCallsOpened env issue number
    · rw [he]
      exact commentCalls_ruleLabelCallsEdited env c issue number
  have hcases : (issue.Body = none ∨ ∃ text, issue.Body = some text ∧ len text < 50) ∨
      ∃ text, issue.Body = some text ∧ 50 ≤ len text := by
    cases hb : issue.Body with
    | none => exact Or.inl (Or.inl rfl)
    | some text =>
      by_cases hlb : len text < 50
      · exact Or.inl (Or.inr ⟨text, rfl, hlb⟩)
      · exact Or.inr ⟨text, rfl, by omega⟩
  refine ⟨hshort, hlong, ?_, ?_⟩
  · rcases hcases with hb | ⟨text, hb, hlb⟩
    · simp only [(hshort hb).2.2.1]
      simp [hb]
    · rw [(hlong text hb hlb).2.2.1]
      constructor
      · intro h
        exact absurd rfl h
      · rintro (h | ⟨t, h, hl2⟩)
        · rw [hb] at h
          cases h
        · rw [hb] at h
          cases h
          omega
  · rcases hcases with hb | ⟨text, hb, hlb⟩
    · simp only [(hshort hb).2.2.2]
      simp [hb]
    · rw [(hlong text hb hlb).2.2.2]
      constructor
      · intro h
        exact absurd rfl h
      · rintro (h | ⟨t, h, hl2⟩)
        · rw [hb] at h
          cases h
        · rw [hb] at h
          cases h
          omega

/-- Witness of C2: issue 43 has a title of 25 bytes and a body of 10 bytes. -/
theorem body_check_witness :
    (20 ≤ len "Crash when pulling images" ∧ len "it crashes" < 50) ∧
      ActToIssueOpened (sampleEnv "opened" issue43) (okClient []) issue43 =
        (Outcome.nil,
          [Call.AddLabelsToIssue 43 ["kind/bug"],
           Call.AddCommentToIssue 43 { Body := some "description too short @bob" },
           Call.AddLabelsToIssue 43 ["status/more-info-needed"]]) ∧
      ActToIssueEdited (sampleEnv "opened" issue43) (okClient []) issue43 =
        (Outcome.nil,
          [Call.GetLabelsInIssue 43,
           Call.AddLabelsToIssue 43 ["kind/bug"],
           Call.AddCommentToIssue 43 { Body := some "description too short @bob" },
           Call.AddLabelsToIssue 43 ["status/more-info-needed"]]) :=
  have h := (body_check (sampleEnv "opened" issue43) (okClient []) issue43 43
    { Login := some "bob" } "bob" "Crash when pulling images" rfl rfl rfl rfl (by decide)
    ⟨fun _ _ _ => rfl, fun _ _ => ⟨_, rfl⟩, fun _ _ _ => rfl⟩).1
    (Or.inr ⟨"it crashes", rfl, by decide⟩)
  ⟨⟨by decide, by decide⟩, h.1, h.2.1⟩

/-! ## Label delta on `edited` -/

/-- The attach-comment block only appends to the log, and what it appends is a
comment tail. -/
theorem attachComment_tail (env : Env) (c : Client) (issue : Issue) (log : List Call) :
    ∃ post, (attachComment env c issue log).2 = log ++ post ∧ CommentTail post := by
  simp only [attachComment]
  repeat' split
  all_goals
    first
    | exact ⟨[], (List.append_nil _).symm, Or.inl rfl⟩
    | exact ⟨_, rfl, Or.inr ⟨_, _, Or.inl rfl⟩⟩
    | exact ⟨_, rfl, Or.inr ⟨_, _, Or.inr rfl⟩⟩

theorem not_mem_of_mem_DeltaSlice (current desired : List String) (name : String)
    (h : name ∈ DeltaSlice current desired) : name ∉ current := by
  simp only [DeltaSlice, List.mem_filter, Bool.not_eq_true', List.contains_eq_any_beq,
    List.any_eq_false, beq_iff_eq] at h
  intro hmem
  exact h.2 name hmem rfl

/-- C3, counterexample.  Issue 42 already carries "status/more-info-needed" and
has the title "Bug": ActToIssueEdited submits that label again. -/
theorem edited_resubmits_fixed_label :
    ¬ (∀ (env : Env) (c : Client) (issue : Issue) (num : Int) (labels : List String)
        (name : String),
        Call.AddLabelsToIssue num labels ∈ (ActToIssueEdited env c issue).2 →
        name ∈ labels → name ∉ currentLabels c num) :=
  fun h => h (sampleEnv "edited" issue42) (okClient ["status/more-info-needed"]) issue42 42
    ["status/more-info-needed"] "status/more-info-needed" (by decide) (by decide) (by decide)

/-- C3, amended.  The log of ActToIssueEdited splits into the calls of the
rule-label step, none of whose AddLabelsToIssue calls carries a name that
GetLabelsInIssue returns for that issue number, followed by a comment tail:
nothing, a comment, or a comment and the submission of
["status/more-info-needed"], which is made without looking at the current
labels. -/
theorem edited_delta_law (env : Env) (c : Client) (issue : Issue) :
    ∃ pre post, (ActToIssueEdited env c issue).2 = pre ++ post ∧
      (∀ num labels, Call.AddLabelsToIssue num labels ∈ pre →
        ∀ name ∈ labels, name ∉ currentLabels c num) ∧
      CommentTail post := by
  by_cases hlab : env.ParseToGenerateLabels issue = []
  · obtain ⟨post, hpost, htail⟩ := attachComment_tail env c issue []
    refine ⟨[], post, ?_, by simp, htail⟩
    simpa [ActToIssueEdited, hlab] using hpost
  · cases hn : issue.Number with
    | none => exact ⟨[], [], by simp [ActToIssueEdited, hlab, hn], by simp, Or.inl rfl⟩
    | some number =>
      cases hg : c.GetLabelsInIssue [] number with
      | error err =>
        exact ⟨[Call.GetLabelsInIssue number], [],
          by simp [ActToIssueEdited, hlab, hn, hg], by simp, Or.inl rfl⟩
      | ok getLabels =>
        have hdelta : ∀ num labels,
            Call.AddLabelsToIssue num labels ∈
              [Call.GetLabelsInIssue number,
               Call.AddLabelsToIssue number
                 (DeltaSlice (getLabels.map GetName) (env.ParseToGenerateLabels issue))] →
            ∀ name ∈ labels, name ∉ currentLabels c num := by
          intro num labels hmem name hname
          simp only [List.mem_cons, List.mem_singleton, Call.AddLabelsToIssue.injEq,
            List.not_mem_nil, or_false, false_or, reduceCtorEq] at hmem
          obtain ⟨rfl, rfl⟩ := hmem
          have hcur : currentLabels c num = getLabels.map GetName := by
            simp [currentLabels, hg]
          rw [hcur]
          exact not_mem_of_mem_DeltaSlice _ _ _ hname
        cases ha : c.AddLabelsToIssue [Call.GetLabelsInIssue number] number
            (DeltaSlice (getLabels.map GetName) (env.ParseToGenerateLabels issue)) with
        | some err =>
          exact ⟨_, [], by simp [ActToIssueEdited, hlab, hn, hg, ha], hdelta, Or.inl rfl⟩
        | none =>
          obtain ⟨post, hpost, htail⟩ := attachComment_tail env c issue
            [Call.GetLabelsInIssue number,
             Call.AddLabelsToIssue number
               (DeltaSlice (getLabels.map GetName) (env.ParseToGenerateLabels issue))]
          refine ⟨_, post, ?_, hdelta, htail⟩
          simpa [ActToIssueEdited, hlab, hn, hg, ha] using hpost

/-! ## Router -/

/-- The calls whose result the handlers inspect: when the submission of the
rule labels, the label read, the submission of the delta or the posting of a
comment fails, the handler stops there and returns that error. -/
theorem checked_calls_propagate (env : Env) (c : Client) (issue : Issue) (number : Int)
    (e : GoError) (hn : issue.Number = some number) :
    (env.ParseToGenerateLabels issue ≠ [] →
        c.AddLabelsToIssue [] number (env.ParseToGenerateLabels issue) = some e →
        ActToIssueOpened env c issue =
          (Outcome.err e, [Call.AddLabelsToIssue number (env.ParseToGenerateLabels issue)])) ∧
      (env.ParseToGenerateLabels issue ≠ [] →
        c.GetLabelsInIssue [] number = Except.error e →
        ActToIssueEdited env c issue = (Outcome.err e, [Call.GetLabelsInIssue number])) ∧
      (∀ getLabels, env.ParseToGenerateLabels issue ≠ [] →
        c.GetLabelsInIssue [] number = Except.ok getLabels →
        c.AddLabelsToIssue [Call.GetLabelsInIssue number] number
          (DeltaSlice (getLabels.map GetName) (env.ParseToGenerateLabels issue)) = some e →
        ActToIssueEdited env c issue =
          (Outcome.err e,
            [Call.GetLabelsInIssue number,
             Call.AddLabelsToIssue number
               (DeltaSlice (getLabels.map GetName) (env.ParseToGenerateLabels issue))])) ∧
      (∀ log user login, issue.User = some user → user.Login = some login →
        (issue.Title = none ∨ ∃ title, issue.Title = some title ∧ len title < 20) →
        c.AddCommentToIssue log number
          { Body := some (env.Sprintf env.IssueTitleTooShort login) } = some e →
        attachComment env c issue log =
          (Outcome.err e,
            log ++ [Call.AddCommentToIssue number
              { Body := some (env.Sprintf env.IssueTitleTooShort login) }])) ∧
      (∀ log user login title, issue.User = some user → user.Login = some login →
        issue.Title = some title → 20 ≤ len title →
        (issue.Body = none ∨ ∃ text, issue.Body = some text ∧ len text < 50) →
        c.AddCommentToIssue log number
          { Body := some (env.Sprintf env.IssueDescriptionTooShort login) } = some e →
        attachComment env c issue log =
          (Outcome.err e,
            log ++ [Call.AddCommentToIssue number
              { Body := some (env.Sprintf env.IssueDescriptionTooShort login) }])) := by
  refine ⟨?_, ?_, ?_, ?_, ?_⟩
  · intro hlab ha
    simp [ActToIssueOpened, hlab, hn, ha]
  · intro hlab hg
    simp [ActToIssueEdited, hlab, hn, hg]
  · intro getLabels hlab hg ha
    simp [ActToIssueEdited, hlab, hn, hg, ha]
  · intro log user login hu hl ht hc
    rcases ht with ht | ⟨title, ht, hlt⟩
    · simp [attachComment, hn, hu, hl, ht, hc]
    · simp [attachComment, hn, hu, hl, ht, hlt, hc]
  · intro log user login title hu hl ht hlt hb hc
    have hlt2 : ¬ len title < 20 := by omega
    rcases hb with hb | ⟨text, hb, hlb⟩
    · simp [attachComment, hn, hu, hl, ht, hlt2, hb, hc]
    · simp [attachComment, hn, hu, hl, ht, hlt2, hb, hlb, hc]

/-- C4, the code at the failing input.  Issue 42 (title "Bug") with a client
whose submission of ["status/more-info-needed"] fails: the call is made and
returns an error, yet Process returns nil for `opened` and for `edited`. -/
theorem fixed_label_failure_not_propagated :
    fixedLabelFailingClient.AddLabelsToIssue
        [Call.AddLabelsToIssue 42 ["kind/bug"],
         Call.AddCommentToIssue 42 { Body := some "title too short @alice" }]
        42 ["status/more-info-needed"] = some { msg := "add labels failed" } ∧
      Process (sampleEnv "opened" issue42) fixedLabelFailingClient [] =
        (Outcome.nil,
          [Call.AddLabelsToIssue 42 ["kind/bug"],
           Call.AddCommentToIssue 42 { Body := some "title too short @alice" },
           Call.AddLabelsToIssue 42 ["status/more-info-needed"]]) ∧
      Process (sampleEnv "edited" issue42) fixedLabelFailingClient [] =
        (Outcome.nil,
          [Call.GetLabelsInIssue 42,
           Call.AddLabelsToIssue 42 ["kind/bug"],
           Call.AddCommentToIssue 42 { Body := some "title too short @alice" },
           Call.AddLabelsToIssue 42 ["status/more-info-needed"]]) := by
  refine ⟨by decide, by decide, by decide⟩

/-- C5, unknown action type.  When the payload decodes to an action type other
than "opened", "edited", "labeled" and "reopened", and to an issue, Process
makes no upstream call and returns an error whose message contains the action
type. -/
theorem unknown_action_type (env : Env) (c : Client) (data : List UInt8)
    (actionType : String) (issue : Issue)
    (hA : env.ExtractActionType data = Except.ok actionType)
    (hI : env.ExactIssue data = Except.ok issue)
    (ho : actionType ≠ "opened") (he : actionType ≠ "edited")
    (hb : actionType ≠ "labeled") (hr : actionType ≠ "reopened") :
    ∃ e, Process env c data = (Outcome.err e, []) ∧
      ∃ before after, e.msg = before ++ actionType ++ after := by
  refine ⟨unknownActionType actionType, ?_, "unknown action type ", " in issue: ", rfl⟩
  simp [Process, hA, hI, ho, he, hb, hr]

/-- Witness of C5: action type "closed". -/
theorem unknown_action_type_witness :
    "closed" ≠ "opened" ∧
      ∃ e, Process (sampleEnv "closed" issue42) failingClient [] = (Outcome.err e, []) ∧
        ∃ before after, e.msg = before ++ "closed" ++ after :=
  ⟨by decide,
    unknown_action_type (sampleEnv "closed" issue42) failingClient [] "closed" issue42 rfl rfl
      (by decide) (by decide) (by decide) (by decide)⟩

/-! ## `labeled` handler -/

theorem needP0Comment_iff (labels : List Label) :
    needP0Comment labels = true ↔ ∃ label ∈ labels, label.Name = some "priority/P0" := by
  induction labels with
  | nil => simp [needP0Comment]
  | cons label rest ih =>
    cases hname : label.Name with
    | none => simp [needP0Comment, hname, ih]
    | some name =>
      by_cases hp : name = "priority/P0"
      · simp [needP0Comment, hname, hp]
      · simp [needP0Comment, hname, hp, ih]

/-- C6, P0 attention comment.  Number and reporter login present.  When some
label of the issue has a name that is present and equal to "priority/P0",
ActToIssueLabeled makes exactly one upstream call, the needs-P0-attention
comment on the issue number, rendered with the reporter login; otherwise it
makes no call and returns nil.  So that single call is made if and only if
such a label exists. -/
theorem p0_attention_comment (env : Env) (c : Client) (issue : Issue)
    (number : Int) (user : User) (login : String)
    (hn : issue.Number = some number) (hu : issue.User = some user)
    (hl : user.Login = some login) :
    ((∃ label ∈ issue.Labels, label.Name = some "priority/P0") →
        (ActToIssueLabeled env c issue).2 =
          [Call.AddCommentToIssue number
             { Body := some (env.Sprintf env.IssueNeedPOComment login) }]) ∧
      ((¬ ∃ label ∈ issue.Labels, label.Name = some "priority/P0") →
        ActToIssueLabeled env c issue = (Outcome.nil, [])) ∧
      ((ActToIssueLabeled env c issue).2 =
          [Call.AddCommentToIssue number
             { Body := some (env.Sprintf env.IssueNeedPOComment login) }] ↔
        ∃ label ∈ issue.Labels, label.Name = some "priority/P0") := by
  have hyes : (∃ label ∈ issue.Labels, label.Name = some "priority/P0") →
      (ActToIssueLabeled env c issue).2 =
        [Call.AddCommentToIssue number
           { Body := some (env.Sprintf env.IssueNeedPOComment login) }] := by
    intro h
    have hp := (needP0Comment_iff issue.Labels).2 h
    cases hc : c.AddCommentToIssue [] number
        { Body := some (env.Sprintf env.IssueNeedPOComment login) } <;>
      simp [ActToIssueLabeled, hp, hn, hu, hl, hc]
  have hno : (¬ ∃ label ∈ issue.Labels, label.Name = some "priority/P0") →
      ActToIssueLabeled env c issue = (Outcome.nil, []) := by
    intro h
    have hp : ¬ needP0Comment issue.Labels = true := fun hp =>
      h ((needP0Comment_iff issue.Labels).1 hp)
    simp [ActToIssueLabeled, hp]
  refine ⟨hyes, hno, ?_, hyes⟩
  intro hcall
  by_contra h
  rw [hno h] at hcall
  cases hcall

/-- Witness of C6 on the scenario of section 8: issue 7 carries "priority/P0". -/
theorem p0_attention_comment_witness :
    (∃ label ∈ issue7.Labels, label.Name = some "priority/P0") ∧
      (ActToIssueLabeled (sampleEnv "labeled" issue7) (okClient []) issue7).2 =
        [Call.AddCommentToIssue 7 { Body := some "P0 needs attention @carol" }] :=
  ⟨⟨{ Name := some "priority/P0" }, by decide, rfl⟩,
    (p0_attention_comment (sampleEnv "labeled" issue7) (okClient []) issue7 7
      { Login := some "carol" } "carol" rfl rfl rfl).1
      ⟨{ Name := some "priority/P0" }, by decide, rfl⟩⟩

/-! ## Swallowed failure of the `labeled` handler -/

/-- C8, counterexample.  Issue 11 carries "priority/P0" and has no reporter:
the payload decodes to "labeled" and to that issue, and Process ends in the nil
dereference of line 203 instead of returning nil. -/
theorem labeled_without_reporter_panics :
    ¬ (∀ (env : Env) (c : Client) (data : List UInt8) (issue : Issue),
        env.ExtractActionType data = Except.ok "labeled" →
        env.ExactIssue data = Except.ok issue →
        (Process env c data).1 = Outcome.nil) :=
  fun h => absurd (h (sampleEnv "labeled" issue11) (okClient []) [] issue11 rfl rfl)
    (by decide)

/-- C8, amended.  When the payload decodes to "labeled" and to an issue that
has its number and reporter login, or that carries no label named
"priority/P0", Process returns nil for every client, having made the calls of
ActToIssueLabeled; in particular it returns nil when ActToIssueLabeled returns
the error of its AddCommentToIssue call. -/
theorem labeled_failure_swallowed (env : Env) (c : Client) (data : List UInt8) (issue : Issue)
    (hA : env.ExtractActionType data = Except.ok "labeled")
    (hI : env.ExactIssue data = Except.ok issue)
    (hpre : (∃ number user login, issue.Number = some number ∧ issue.User = some user ∧
        user.Login = some login) ∨
      ¬ ∃ label ∈ issue.Labels, label.Name = some "priority/P0") :
    Process env c data = (Outcome.nil, (ActToIssueLabeled env c issue).2) ∧
      (∀ e, (ActToIssueLabeled env c issue).1 = Outcome.err e →
        Process env c data = (Outcome.nil, (ActToIssueLabeled env c issue).2)) := by
  have hP : Process env c data =
      (match ActToIssueLabeled env c issue with
        | (Outcome.err _, log) => (Outcome.nil, log)
        | (Outcome.nil, log) => (Outcome.nil, log)
        | (Outcome.panic, log) => (Outcome.panic, log)) := by
    simp [Process, hA, hI]
  have hmain : Process env c data = (Outcome.nil, (ActToIssueLabeled env c issue).2) := by
    rw [hP]
    rcases hpre with ⟨number, user, login, hn, hu, hl⟩ | hno
    · by_cases hp : needP0Comment issue.Labels = true
      · cases hc : c.AddCommentToIssue [] number
            { Body := some (env.Sprintf env.IssueNeedPOComment login) } <;>
          simp [ActToIssueLabeled, hp, hn, hu, hl, hc]
      · simp [ActToIssueLabeled, hp]
    · have hp : ¬ needP0Comment issue.Labels = true := fun hp =>
        hno ((needP0Comment_iff issue.Labels).1 hp)
      simp [ActToIssueLabeled, hp]
  exact ⟨hmain, fun _ _ => hmain⟩

/-- Witness of C8, amended: issue 7 carries "priority/P0" and has its reporter,
the comment call fails; the handler returns the error and Process returns
nil. -/
theorem labeled_failure_swallowed_witness :
    ActToIssueLabeled (sampleEnv "labeled" issue7) failingClient issue7 =
        (Outcome.err { msg := "add comment failed" },
          [Call.AddCommentToIssue 7 { Body := some "P0 needs attention @carol" }]) ∧
      Process (sampleEnv "labeled" issue7) failingClient [] =
        (Outcome.nil, [Call.AddCommentToIssue 7 { Body := some "P0 needs attention @carol" }]) :=
  ⟨by decide,
    (labeled_failure_swallowed (sampleEnv "labeled" issue7) failingClient [] issue7 rfl rfl
      (Or.inl ⟨7, { Login := some "carol" }, "carol", rfl, rfl, rfl⟩)).1⟩

/-! ## Rule registry -/

/-- C7, counterexample.  A rule giving "area/extra" is registered after
start-up.  The concatenation over the registry is ["kind/bug", "area/extra"] on
issue 42, and neither handler submits it: the rule-label step submits
["kind/bug"], the output of ParseToGenerateLabels alone. -/
theorem later_registered_rule_ignored :
    specDesired (Register (fun _ => ["area/extra"]) (init (sampleEnv "opened" issue42) []))
        issue42 = ["kind/bug", "area/extra"] ∧
      labelCalls (ActToIssueOpened (sampleEnv "opened" issue42) (okClient []) issue42).2 =
        [(42, ["kind/bug"]), (42, ["status/more-info-needed"])] ∧
      labelCalls (ActToIssueEdited (sampleEnv "opened" issue42) (okClient []) issue42).2 =
        [(42, ["kind/bug"]), (42, ["status/more-info-needed"])] ∧
      (42, specDesired (Register (fun _ => ["area/extra"])
          (init (sampleEnv "opened" issue42) [])) issue42) ∉
        labelCalls (ActToIssueOpened (sampleEnv "opened" issue42) (okClient []) issue42).2 ∧
      (42, specDesired (Register (fun _ => ["area/extra"])
          (init (sampleEnv "opened" issue42) [])) issue42) ∉
        labelCalls (ActToIssueEdited (sampleEnv "opened" issue42) (okClient []) issue42).2 := by
  refine ⟨by decide, by decide, by decide, by decide, by decide⟩

/-- C7, amended.  For the registry as `init` leaves it, the concatenation of
the registered rules' outputs is the output of ParseToGenerateLabels, and that
list is what the handlers use: with the issue number present and a client
whose calls succeed, ActToIssueOpened starts by submitting it when it is not
empty, ActToIssueEdited starts by reading the labels and submitting its delta
against them, and each goes on with a comment tail. -/
theorem desired_is_startup_registry (env : Env) (c : Client) (issue : Issue) (number : Int)
    (hn : issue.Number = some number) (hc : c.AllSucceed) :
    specDesired (init env []) issue = env.ParseToGenerateLabels issue ∧
      (∃ post, CommentTail post ∧
        (ActToIssueOpened env c issue).2 =
          (if specDesired (init env []) issue = [] then []
           else [Call.AddLabelsToIssue number (specDesired (init env []) issue)]) ++ post) ∧
      (∃ post, CommentTail post ∧
        (ActToIssueEdited env c issue).2 =
          (if specDesired (init env []) issue = [] then []
           else [Call.GetLabelsInIssue number,
                 Call.AddLabelsToIssue number
                   (DeltaSlice (currentLabels c number) (specDesired (init env []) issue))])
            ++ post) := by
  have hs : specDesired (init env []) issue = env.ParseToGenerateLabels issue := by
    simp [specDesired, init, Register]
  refine ⟨hs, ?_, ?_⟩
  · obtain ⟨post, hpost, htail⟩ :=
      attachComment_tail env c issue (ruleLabelCallsOpened env issue number)
    refine ⟨post, htail, ?_⟩
    rw [ActToIssueOpened_allSucceed env c issue number hn hc, hpost, hs]
    rfl
  · obtain ⟨post, hpost, htail⟩ :=
      attachComment_tail env c issue (ruleLabelCallsEdited env c issue number)
    refine ⟨post, htail, ?_⟩
    rw [ActToIssueEdited_allSucceed env c issue number hn hc, hpost, hs]
    rfl

/-- Witness of C7, amended, on issue 42. -/
theorem desired_is_startup_registry_witness :
    (okClient []).AllSucceed ∧
      specDesired (init (sampleEnv "opened" issue42) []) issue42 = ["kind/bug"] :=
  ⟨⟨fun _ _ _ => rfl, fun _ _ => ⟨_, rfl⟩, fun _ _ _ => rfl⟩,
    (desired_is_startup_registry (sampleEnv "opened" issue42) (okClient []) issue42 42 rfl
      ⟨fun _ _ _ => rfl, fun _ _ => ⟨_, rfl⟩, fun _ _ _ => rfl⟩).1⟩

/-! ## Units of the thresholds -/

theorem length_le_len (s : String) : s.length ≤ len s := by
  have key : ∀ cs : List Char, cs.length ≤ String.utf8ByteSize.go cs := by
    intro cs
    induction cs with
    | nil => simp [String.utf8ByteSize.go]
    | cons ch cs ih =>
      have := Char.utf8Size_pos ch
      simp only [List.length_cons, String.utf8ByteSize.go]
      omega
  exact key s.data

/-- C9, counterexample.  The title of issue 9 has 10 characters and 30 bytes,
its body has 60 bytes: neither handler posts a comment. -/
theorem multibyte_title_not_short :
    "问题问题问题问题问题".length = 10 ∧ len "问题问题问题问题问题" = 30 ∧
      ActToIssueOpened (sampleEnv "opened" issue9) (okClient []) issue9 =
        (Outcome.nil, [Call.AddLabelsToIssue 9 ["kind/bug"]]) ∧
      ActToIssueEdited (sampleEnv "edited" issue9) (okClient []) issue9 =
        (Outcome.nil, [Call.GetLabelsInIssue 9, Call.AddLabelsToIssue 9 ["kind/bug"]]) := by
  refine ⟨by decide, by decide, by decide, by decide⟩

/-- C9, amended.  The thresholds count bytes (Go `len`).  Number and reporter
login present, every client call succeeding: a title present with fewer than 20
bytes makes both handlers post the title-too-short comment; a title of 20 bytes
or more with a body present of fewer than 50 bytes makes both post the
description-too-short comment.  A text has at most as many characters as
bytes. -/
theorem thresholds_count_bytes (env : Env) (c : Client) (issue : Issue)
    (number : Int) (user : User) (login : String)
    (hn : issue.Number = some number) (hu : issue.User = some user)
    (hl : user.Login = some login) (hc : c.AllSucceed) :
    (∀ title, issue.Title = some title → len title < 20 →
        (number, { Body := some (env.Sprintf env.IssueTitleTooShort login) }) ∈
          commentCalls (ActToIssueOpened env c issue).2 ∧
        (number, { Body := some (env.Sprintf env.IssueTitleTooShort login) }) ∈
          commentCalls (ActToIssueEdited env c issue).2) ∧
      (∀ title text, issue.Title = some title → 20 ≤ len title →
        issue.Body = some text → len text < 50 →
        (number, { Body := some (env.Sprintf env.IssueDescriptionTooShort login) }) ∈
          commentCalls (ActToIssueOpened env c issue).2 ∧
        (number, { Body := some (env.Sprintf env.IssueDescriptionTooShort login) }) ∈
          commentCalls (ActToIssueEdited env c issue).2) ∧
      (∀ text : String, text.length ≤ len text) := by
  have ho := ActToIssueOpened_allSucceed env c issue number hn hc
  have he := ActToIssueEdited_allSucceed env c issue number hn hc
  refine ⟨?_, ?_, length_le_len⟩
  · intro title ht hlt
    rw [attachComment_title env c issue _ number user login hn hu hl
      (Or.inr ⟨title, ht, hlt⟩) (hc.2.2 _ _ _)] at ho he
    rw [ho, he]
    simp [commentCalls_append, commentCalls]
  · intro title text ht hlt hb hlb
    rw [attachComment_body env c issue _ number user login title hn hu hl ht hlt
      (Or.inr ⟨text, hb, hlb⟩) (hc.2.2 _ _ _)] at ho he
    rw [ho, he]
    simp [commentCalls_append, commentCalls]

/-- Witness of C9, amended: the title "Bug" of issue 42 has 3 bytes. -/
theorem thresholds_count_bytes_witness :
    len "Bug" < 20 ∧
      (42, { Body := some "title too short @alice" }) ∈
        commentCalls (ActToIssueOpened (sampleEnv "opened" issue42) (okClient []) issue42).2 :=
  ⟨by decide,
    ((thresholds_count_bytes (sampleEnv "opened" issue42) (okClient []) issue42 42
      { Login := some "alice" } "alice" rfl rfl rfl
      ⟨fun _ _ _ => rfl, fun _ _ => ⟨_, rfl⟩, fun _ _ _ => rfl⟩).1 "Bug" rfl (by decide)).1⟩

/-! ## Nil dereferences -/

theorem attachComment_returns (env : Env) (c : Client) (issue : Issue) (log : List Call)
    (number : Int) (user : User) (login : String)
    (hn : issue.Number = some number) (hu : issue.User = some user)
    (hl : user.Login = some login) :
    ReturnsNilOrUpstreamError c (attachComment env c issue log) := by
  simp only [attachComment, hn, hu, hl, ReturnsNilOrUpstreamError]
  repeat' split
  all_goals
    first
    | exact Or.inl rfl
    | exact Or.inr ⟨_, rfl, Or.inr (Or.inr ⟨_, _, _, by assumption⟩)⟩

/-- C10, no nil dereference under the minimal precondition.  When the issue
number and the reporter login are present, each of the three handlers returns
nil or an error that a call on the client returned, for every client, title,
body and label list.  The precondition is needed: on issue 10, which has no
reporter and no title, ActToIssueOpened ends in a nil dereference. -/
theorem no_nil_dereference (env : Env) (c : Client) (issue : Issue)
    (number : Int) (user : User) (login : String)
    (hn : issue.Number = some number) (hu : issue.User = some user)
    (hl : user.Login = some login) :
    ReturnsNilOrUpstreamError c (ActToIssueOpened env c issue) ∧
      ReturnsNilOrUpstreamError c (ActToIssueEdited env c issue) ∧
      ReturnsNilOrUpstreamError c (ActToIssueLabeled env c issue) ∧
      (issue10.User = none ∧ issue10.Title = none ∧
        (ActToIssueOpened (sampleEnv "opened" issue10) (okClient []) issue10).1 =
          Outcome.panic) := by
  refine ⟨?_, ?_, ?_, rfl, rfl, by decide⟩
  · by_cases hlab : env.ParseToGenerateLabels issue = []
    · simpa [ActToIssueOpened, hlab] using
        attachComment_returns env c issue [] number user login hn hu hl
    · cases ha : c.AddLabelsToIssue [] number (env.ParseToGenerateLabels issue) with
      | some err =>
        simp only [ActToIssueOpened, List.length_eq_zero, ne_eq, hlab, not_false_eq_true,
          if_true, hn, ha]
        exact Or.inr ⟨err, rfl, Or.inl ⟨_, _, _, ha⟩⟩
      | none =>
        simpa [ActToIssueOpened, hlab, hn, ha] using
          attachComment_returns env c issue _ number user login hn hu hl
  · by_cases hlab : env.ParseToGenerateLabels issue = []
    · simpa [ActToIssueEdited, hlab] using
        attachComment_returns env c issue [] number user login hn hu hl
    · cases hg : c.GetLabelsInIssue [] number with
      | error err =>
        simp only [ActToIssueEdited, List.length_eq_zero, ne_eq, hlab, not_false_eq_true,
          if_true, hn, hg]
        exact Or.inr ⟨err, rfl, Or.inr (Or.inl ⟨_, _, hg⟩)⟩
      | ok getLabels =>
        cases ha : c.AddLabelsToIssue [Call.GetLabelsInIssue number] number
            (DeltaSlice (getLabels.map GetName) (env.ParseToGenerateLabels issue)) with
        | some err =>
          simp only [ActToIssueEdited, List.length_eq_zero, ne_eq, hlab, not_false_eq_true,
            if_true, hn, hg, ha]
          exact Or.inr ⟨err, rfl, Or.inl ⟨_, _, _, ha⟩⟩
        | none =>
          simpa [ActToIssueEdited, hlab, hn, hg, ha] using
            attachComment_returns env c issue _ number user login hn hu hl
  · by_cases hp : needP0Comment issue.Labels = true
    · cases hc : c.AddCommentToIssue [] number
          { Body := some (env.Sprintf env.IssueNeedPOComment login) } with
      | some err =>
        simp only [ActToIssueLabeled, hp, hn, hu, hl, hc]
        exact Or.inr ⟨err, rfl, Or.inr (Or.inr ⟨_, _, _, hc⟩)⟩
      | none =>
        simp only [ActToIssueLabeled, hp, hn, hu, hl, hc]
        exact Or.inl rfl
    · simp only [ActToIssueLabeled, hp]
      exact Or.inl rfl

/-- Witness of C10: issue 7, which has a label, no body and a failing client. -/
theorem no_nil_dereference_witness :
    (issue7.Number = some 7 ∧ issue7.Body = none) ∧
      ReturnsNilOrUpstreamError failingClient
        (ActToIssueOpened (sampleEnv "opened" issue7) failingClient issue7) ∧
      ReturnsNilOrUpstreamError failingClient
        (ActToIssueLabeled (sampleEnv "labeled" issue7) failingClient issue7) :=
  have ho := no_nil_dereference (sampleEnv "opened" issue7) failingClient issue7 7
    { Login := some "carol" } "carol" rfl rfl rfl
  have hl := no_nil_dereference (sampleEnv "labeled" issue7) failingClient issue7 7
    { Login := some "carol" } "carol" rfl rfl rfl
  ⟨⟨rfl, rfl⟩, ho.1, hl.2.2.1⟩

end IssueProcessor
